import Mathlib

/-!
Shallow embedding of the workspace/page data-access layer of the euclid web
application (the supabase utility functions re-exported through `src/App.tsx`).

The managed backend (PostgREST + object storage) is modelled by an explicit
`Store` value.  Each data-access wrapper becomes a pure function: reads return
`Except DbError _`, writes return a result together with the updated store.
Supabase `.single()` semantics (an error when zero rows match), `.in(...)`
set-membership filters, `ORDER BY created_at` and the `upsert: false` upload
conflict are modelled explicitly.  Transient failure of the pages `.in()`
query — which the aggregation layer handles specially — is modelled by the
oracle field `pagesQueryError` of the store.
-/

namespace Euclid

/-- Structured error returned by a data-access call. `notFound` models the
PostgREST error produced by `.single()` when no row matches; `conflict` models
a unique-key insert conflict or an `upsert: false` upload collision;
`queryFailed` models a transient failure of a list query; `noSession` models
the authorization error thrown by `addWorkspaceToUser` without a session. -/
inductive DbError where
  | notFound
  | conflict
  | queryFailed
  | noSession
deriving DecidableEq

/-- A row of the `workspaces` table (see `createWorkspace`). `page_id_list`
is `Option` because a row may carry a SQL `null` list, which the code
normalises with `|| []`. -/
structure Workspace where
  workspace_id : String
  title : String
  upload_url : Option String
  page_id_list : Option (List String)
  question_list : List String
  num_completed : Nat
  created_at : Nat
deriving DecidableEq

/-- A row of the `pages` table (see `createPage`). `snapshot` is an opaque
serialized canvas state; the data-access layer never inspects it. -/
structure Page where
  page_id : String
  question : Option String
  snapshot : String
  is_complete : Bool
  created_at : Nat
deriving DecidableEq

/-- A row of the `user_info` table: a user and the workspaces they own. -/
structure UserInfo where
  user_id : String
  workspace_id_list : Option (List String)
deriving DecidableEq

/-- The backend state: the three tables, the `uploads` storage bucket
(a list of object paths), an oracle saying whether the pages `.in()` query
fails for a given identifier list, and whether an authenticated session is
present. -/
structure Store where
  workspaces : List Workspace
  pages : List Page
  user_infos : List UserInfo
  storage : List String
  pagesQueryError : List String → Bool
  hasSession : Bool

/-- Ascending `created_at` order used by the pages query. -/
def pageOrder (a b : Page) : Prop := a.created_at ≤ b.created_at

instance : DecidableRel pageOrder := fun a b => Nat.decLe a.created_at b.created_at

/-- Descending `created_at` order used by the workspaces query. -/
def workspaceOrder (a b : Workspace) : Prop := b.created_at ≤ a.created_at

instance : DecidableRel workspaceOrder := fun a b => Nat.decLe b.created_at a.created_at

/-- `getWorkspace`: select a single workspace row by identifier;
`.single()` yields an error when no row matches. -/
def getWorkspace (s : Store) (workspaceId : String) : Except DbError Workspace :=
  match s.workspaces.find? (fun w => w.workspace_id == workspaceId) with
  | some w => .ok w
  | none => .error .notFound

/-- `getUserInfo`: select a single `user_info` row by user identifier;
`.single()` yields an error when no row matches. -/
def getUserInfo (s : Store) (userId : String) : Except DbError UserInfo :=
  match s.user_infos.find? (fun u => u.user_id == userId) with
  | some u => .ok u
  | none => .error .notFound

/-- `getPage`: select a single page row by identifier. -/
def getPage (s : Store) (pageId : String) : Except DbError Page :=
  match s.pages.find? (fun p => p.page_id == pageId) with
  | some p => .ok p
  | none => .error .notFound

/-- The pages query used by the aggregation layer:
`from('pages').select('*').in('page_id', pageIds).order('created_at', ascending)`.
It returns the page rows whose identifier belongs to `pageIds`, ordered by
creation time ascending, or fails when the store's failure oracle says so. -/
def fetchPagesByIds (s : Store) (pageIds : List String) : Except DbError (List Page) :=
  if s.pagesQueryError pageIds then .error .queryFailed
  else .ok (List.insertionSort pageOrder (s.pages.filter (fun p => pageIds.contains p.page_id)))

/-- `createWorkspace`: insert a fresh workspace row with empty
`page_id_list`, empty `question_list` and `num_completed = 0`.  The generated
identifier and the creation timestamp are passed as parameters; the insert
conflicts when the identifier already exists. -/
def createWorkspace (s : Store) (workspaceId : String) (title : String)
    (uploadUrl : Option String) (now : Nat) : Except DbError Workspace × Store :=
  if s.workspaces.any (fun w => w.workspace_id == workspaceId) then
    (.error .conflict, s)
  else
    let w : Workspace :=
      { workspace_id := workspaceId, title := title, upload_url := uploadUrl,
        page_id_list := some [], question_list := [], num_completed := 0,
        created_at := now }
    (.ok w, { s with workspaces := s.workspaces ++ [w] })

/-- The read half of `addPageToWorkspace`: fetch the current workspace and
normalise its page list with `|| []`. -/
def addPageRead (s : Store) (workspaceId : String) : Except DbError (List String) :=
  match getWorkspace s workspaceId with
  | .error e => .error e
  | .ok w => .ok (w.page_id_list.getD [])

/-- The write half of `addPageToWorkspace`: append the page identifier to the
previously read list and write the result back to every matching row;
`.single()` yields an error when no row matched. -/
def addPageWrite (s : Store) (workspaceId : String) (pageId : String)
    (currentPageList : List String) : Except DbError Workspace × Store :=
  let updatedPageList := currentPageList ++ [pageId]
  let newWorkspaces := s.workspaces.map (fun w =>
    if w.workspace_id == workspaceId then { w with page_id_list := some updatedPageList } else w)
  match s.workspaces.find? (fun w => w.workspace_id == workspaceId) with
  | some w => (.ok { w with page_id_list := some updatedPageList },
               { s with workspaces := newWorkspaces })
  | none => (.error .notFound, { s with workspaces := newWorkspaces })

/-- `addPageToWorkspace`: the sequential read-modify-write composition of
`addPageRead` and `addPageWrite`. -/
def addPageToWorkspace (s : Store) (workspaceId : String) (pageId : String) :
    Except DbError Workspace × Store :=
  match addPageRead s workspaceId with
  | .error e => (.error e, s)
  | .ok currentPageList => addPageWrite s workspaceId pageId currentPageList

/-- `createPage`: insert a fresh page row with `is_complete = false`. -/
def createPage (s : Store) (pageId : String) (snapshot : String)
    (question : Option String) (now : Nat) : Except DbError Page × Store :=
  if s.pages.any (fun p => p.page_id == pageId) then
    (.error .conflict, s)
  else
    let p : Page :=
      { page_id := pageId, question := question, snapshot := snapshot,
        is_complete := false, created_at := now }
    (.ok p, { s with pages := s.pages ++ [p] })

/-- `markPageComplete`: `update({ is_complete: true }).eq('page_id', pageId)`
followed by `.select().single()`: every matching row gets `is_complete` set
to `true`; the call reports an error when no row matched. -/
def markPageComplete (s : Store) (pageId : String) : Except DbError Page × Store :=
  let newPages := s.pages.map (fun p =>
    if p.page_id == pageId then { p with is_complete := true } else p)
  match s.pages.find? (fun p => p.page_id == pageId) with
  | some p => (.ok { p with is_complete := true }, { s with pages := newPages })
  | none => (.error .notFound, { s with pages := newPages })

/-- `addWorkspaceToUser`: requires an authenticated session; if no
`user_info` row exists for the user, insert one with a singleton list,
otherwise append the workspace identifier to the existing list (normalised
with `|| []`) and write it back. -/
def addWorkspaceToUser (s : Store) (userId : String) (workspaceId : String) :
    Except DbError UserInfo × Store :=
  if !s.hasSession then (.error .noSession, s)
  else
    match s.user_infos.find? (fun u => u.user_id == userId) with
    | none =>
      let u : UserInfo := { user_id := userId, workspace_id_list := some [workspaceId] }
      (.ok u, { s with user_infos := s.user_infos ++ [u] })
    | some existing =>
      let updatedWorkspaceList := existing.workspace_id_list.getD [] ++ [workspaceId]
      let newInfos := s.user_infos.map (fun u =>
        if u.user_id == userId then { u with workspace_id_list := some updatedWorkspaceList } else u)
      (.ok { existing with workspace_id_list := some updatedWorkspaceList },
       { s with user_infos := newInfos })

/-- `getUserWorkspaces`: fetch the user's `user_info`; with no list or an
empty list return `[]`; otherwise return all workspaces whose identifier is
in the list, ordered by creation time descending. -/
def getUserWorkspaces (s : Store) (userId : String) : Except DbError (List Workspace) :=
  match getUserInfo s userId with
  | .error e => .error e
  | .ok userInfo =>
    match userInfo.workspace_id_list with
    | none => .ok []
    | some wids =>
      if wids.isEmpty then .ok []
      else .ok (List.insertionSort workspaceOrder
        (s.workspaces.filter (fun w => wids.contains w.workspace_id)))

/-- Result of `uploadFile`: the storage path, the public URL and the original
file name. -/
structure UploadResult where
  path : String
  url : String
  fileName : String
deriving DecidableEq

/-- An uploaded file, reduced to the data the layer uses: its name. -/
structure FileUpload where
  name : String
deriving DecidableEq

/-- Character-level model of the JavaScript `String.split` with a one-character
separator, used by `uploadPath` for `file.name.split('.')`. -/
def splitOnChar (c : Char) : List Char → List (List Char)
  | [] => [[]]
  | a :: as =>
    let rest := splitOnChar c as
    if a == c then [] :: rest
    else
      match rest with
      | [] => [[a]]
      | r :: rs => (a :: r) :: rs

/-- The storage path chosen by `uploadFile`: the current timestamp followed by
the original file extension (`file.name.split('.').pop()`). -/
def uploadPath (file : FileUpload) (now : Nat) : String :=
  toString now ++ "." ++ String.mk ((splitOnChar '.' file.name.toList).getLastD [])

/-- The public URL supabase derives from a storage path. -/
def publicUrl (path : String) : String :=
  "uploads/" ++ path

/-- `uploadFile`: store the object under a timestamp-derived path with
`upsert: false`, so the upload conflicts when the path already exists;
on success return the path, its public URL and the file name. -/
def uploadFile (s : Store) (file : FileUpload) (now : Nat) :
    Except DbError UploadResult × Store :=
  let filePath := uploadPath file now
  if s.storage.contains filePath then (.error .conflict, s)
  else (.ok { path := filePath, url := publicUrl filePath, fileName := file.name },
        { s with storage := s.storage ++ [filePath] })

/-- `deleteFile`: remove an object from the `uploads` bucket. -/
def deleteFile (s : Store) (filePath : String) : Except DbError Unit × Store :=
  (.ok (), { s with storage := s.storage.filter (fun p => p != filePath) })

/-- `createWorkspaceWithUpload`: upload the file, then create a workspace
referencing the upload's public URL, then link the workspace to the user;
each step runs only when the previous one succeeded, and a failure at any
step returns that step's error with no compensating cleanup. -/
def createWorkspaceWithUpload (s : Store) (title : String) (file : FileUpload)
    (userId : String) (now : Nat) (freshWorkspaceId : String) :
    Except DbError (Workspace × UploadResult) × Store :=
  match uploadFile s file now with
  | (.error e, s1) => (.error e, s1)
  | (.ok uploadData, s1) =>
    match createWorkspace s1 freshWorkspaceId title (some uploadData.url) now with
    | (.error e, s2) => (.error e, s2)
    | (.ok workspace, s2) =>
      match addWorkspaceToUser s2 userId workspace.workspace_id with
      | (.error e, s3) => (.error e, s3)
      | (.ok _, s3) => (.ok (workspace, uploadData), s3)

/-- A workspace augmented with the data the aggregation layer derives from
its pages. -/
structure WorkspaceWithPages where
  workspace : Workspace
  pages : List Page
  completedCount : Nat
  totalCount : Nat
  status : String
deriving DecidableEq

/-- The per-workspace aggregation performed inside
`getUserWorkspacesWithPages`: an empty page list yields zero counts; a failed
pages query degrades to `completedCount = 0`, `totalCount = pageIds.length`
and status `in progress`; otherwise the completion flags are folded into the
counts and the status is derived. -/
def aggregateWorkspace (s : Store) (workspace : Workspace) : WorkspaceWithPages :=
  let pageIds := workspace.page_id_list.getD []
  if pageIds.isEmpty then
    { workspace := workspace, pages := [], completedCount := 0, totalCount := 0,
      status := "in progress" }
  else
    match fetchPagesByIds s pageIds with
    | .error _ =>
      { workspace := workspace, pages := [], completedCount := 0,
        totalCount := pageIds.length, status := "in progress" }
    | .ok fetchedPages =>
      let completedCount := (fetchedPages.filter (fun p => p.is_complete)).length
      let totalCount := fetchedPages.length
      let status := if completedCount = totalCount ∧ 0 < totalCount
        then "completed" else "in progress"
      { workspace := workspace, pages := fetchedPages, completedCount := completedCount,
        totalCount := totalCount, status := status }

/-- `getUserWorkspacesWithPages`: fetch the user's workspaces and aggregate
each one's pages; a failure of the workspace listing propagates as an error,
while a failure of one workspace's pages query only degrades that entry. -/
def getUserWorkspacesWithPages (s : Store) (userId : String) :
    Except DbError (List WorkspaceWithPages) :=
  match getUserWorkspaces s userId with
  | .error e => .error e
  | .ok workspaces =>
    if workspaces.isEmpty then .ok []
    else .ok (workspaces.map (aggregateWorkspace s))

/-- `getWorkspaceWithPages`: fetch one workspace and aggregate its pages;
unlike the listing variant, a failed pages query propagates as an error. -/
def getWorkspaceWithPages (s : Store) (workspaceId : String) :
    Except DbError WorkspaceWithPages :=
  match getWorkspace s workspaceId with
  | .error e => .error e
  | .ok workspace =>
    let pageIds := workspace.page_id_list.getD []
    if pageIds.isEmpty then
      .ok { workspace := workspace, pages := [], completedCount := 0, totalCount := 0,
            status := "in progress" }
    else
      match fetchPagesByIds s pageIds with
      | .error e => .error e
      | .ok fetchedPages =>
        let completedCount := (fetchedPages.filter (fun p => p.is_complete)).length
        let totalCount := fetchedPages.length
        let status := if completedCount = totalCount ∧ 0 < totalCount
          then "completed" else "in progress"
        .ok { workspace := workspace, pages := fetchedPages,
              completedCount := completedCount, totalCount := totalCount, status := status }

/-- Sequential execution of `addPageToWorkspace` for a list of pages: each
call completes (its store update included) before the next begins. -/
def addPagesSeq (s : Store) (workspaceId : String) : List String → Store
  | [] => s
  | pid :: rest => addPagesSeq (addPageToWorkspace s workspaceId pid).2 workspaceId rest

/-- Projection of an aggregation result onto the derived progress data
(`completedCount`, `totalCount`, `status`). -/
def progressOf (r : WorkspaceWithPages) : Nat × Nat × String :=
  (r.completedCount, r.totalCount, r.status)

/-- Progress view of a single-workspace aggregation call. -/
def progressView (r : Except DbError WorkspaceWithPages) : Option (Nat × Nat × String) :=
  match r with
  | .ok v => some (progressOf v)
  | .error _ => none

/-- Progress view of a workspace-listing aggregation call. -/
def progressListView (r : Except DbError (List WorkspaceWithPages)) :
    Option (List (Nat × Nat × String)) :=
  match r with
  | .ok l => some (l.map progressOf)
  | .error _ => none

/-- The row rewrite performed by `setNumCompleted`: overwrite `num_completed`
on a matching row, keep every other row and field unchanged. -/
def setNumCompletedRow (workspaceId : String) (n : Nat) (w : Workspace) : Workspace :=
  if w.workspace_id == workspaceId then { w with num_completed := n } else w

/-- Overwrite the stored `num_completed` counter of every workspace row with
the given identifier, leaving every other field and table unchanged. -/
def setNumCompleted (s : Store) (workspaceId : String) (n : Nat) : Store :=
  { s with workspaces := s.workspaces.map (setNumCompletedRow workspaceId n) }

/-! ### Concrete example data used by the witnesses -/

/-- A completed example page. -/
def exPage1 : Page :=
  { page_id := "p1", question := none, snapshot := "s1", is_complete := true, created_at := 1 }

/-- An unfinished example page. -/
def exPage2 : Page :=
  { page_id := "p2", question := some "q2", snapshot := "s2", is_complete := false,
    created_at := 2 }

/-- An example workspace holding the two example pages. -/
def exWorkspace1 : Workspace :=
  { workspace_id := "w1", title := "Algebra", upload_url := none,
    page_id_list := some ["p1", "p2"], question_list := [], num_completed := 0, created_at := 5 }

/-- An example workspace with an empty page list and a stale counter. -/
def exWorkspace2 : Workspace :=
  { workspace_id := "w2", title := "Geometry", upload_url := none, page_id_list := some [],
    question_list := [], num_completed := 7, created_at := 9 }

/-- An example user owning both example workspaces. -/
def exUser : UserInfo := { user_id := "u", workspace_id_list := some ["w1", "w2"] }

/-- An example user whose workspace list is empty. -/
def exUserEmpty : UserInfo := { user_id := "v", workspace_id_list := some [] }

/-- A healthy example store: no query ever fails, a session is present. -/
def exStore : Store :=
  { workspaces := [exWorkspace1, exWorkspace2], pages := [exPage1, exPage2],
    user_infos := [exUser, exUserEmpty], storage := [],
    pagesQueryError := fun _ => false, hasSession := true }

/-- The example store with a failing pages query for workspace `w1`'s list. -/
def exStoreFail : Store :=
  { exStore with pagesQueryError := fun l => l == ["p1", "p2"] }

/-! ### Shared helper lemmas -/

/-- Finding by key after a keyed in-place update: updating every row whose key
matches and then looking the key up returns the updated version of the row the
lookup returned before. -/
theorem find?_map_key_update {α : Type} (key : α → String) (k : String) (g : α → α)
    (hg : ∀ x, key (g x) = key x) (l : List α) {w : α}
    (hfind : l.find? (fun x => key x == k) = some w) :
    (l.map (fun x => if key x == k then g x else x)).find? (fun x => key x == k) = some (g w) := by
  rw [List.find?_map]
  have hcomp : ((fun x => key x == k) ∘ fun x => if key x == k then g x else x) =
      fun x => key x == k := by
    funext x
    by_cases h : (key x == k) = true
    · simp [Function.comp, h, hg]
    · simp [Function.comp, h]
  rw [hcomp, hfind, Option.map_some']
  have hpw := List.find?_some hfind
  simp only [hpw, if_pos]

/-- Keyed update of the workspaces table followed by a lookup of the same key
returns the updated version of the previously found row. -/
theorem find?_workspaces_update {l : List Workspace} {workspaceId : String}
    (pl : List String) (w : Workspace)
    (hfind : l.find? (fun x => x.workspace_id == workspaceId) = some w) :
    (l.map (fun x => if x.workspace_id == workspaceId
        then { x with page_id_list := some pl } else x)).find?
      (fun x => x.workspace_id == workspaceId) = some { w with page_id_list := some pl } :=
  find?_map_key_update Workspace.workspace_id workspaceId
    (fun x => { x with page_id_list := some pl }) (fun _ => rfl) l hfind

/-- Keyed update of the `user_info` table followed by a lookup of the same
key returns the updated version of the previously found row. -/
theorem find?_user_infos_update {l : List UserInfo} {userId : String}
    (wl : List String) (u : UserInfo)
    (hfind : l.find? (fun x => x.user_id == userId) = some u) :
    (l.map (fun x => if x.user_id == userId
        then { x with workspace_id_list := some wl } else x)).find?
      (fun x => x.user_id == userId) = some { u with workspace_id_list := some wl } :=
  find?_map_key_update UserInfo.user_id userId
    (fun x => { x with workspace_id_list := some wl }) (fun _ => rfl) l hfind

/-- Evaluation of `addPageToWorkspace` when the workspace row is found: the
call returns the row with the page appended and writes the appended list back
to every matching row. -/
theorem addPageToWorkspace_found (s : Store) (workspaceId pageId : String)
    (w : Workspace) (l : List String)
    (hw : s.workspaces.find? (fun x => x.workspace_id == workspaceId) = some w)
    (hwl : w.page_id_list = some l) :
    addPageToWorkspace s workspaceId pageId =
      (.ok { w with page_id_list := some (l ++ [pageId]) },
       { s with workspaces := s.workspaces.map (fun x =>
           if x.workspace_id == workspaceId
           then { x with page_id_list := some (l ++ [pageId]) } else x) }) := by
  have hread : addPageRead s workspaceId = .ok l := by
    simp only [addPageRead, getWorkspace, hw, hwl]
    rfl
  simp only [addPageToWorkspace, hread, addPageWrite]
  rw [hw]

/-- Evaluation of `addWorkspaceToUser` when a session is present and the
`user_info` row is found: the call appends the workspace identifier and
writes the appended list back to every matching row. -/
theorem addWorkspaceToUser_found (s : Store) (userId workspaceId : String)
    (u : UserInfo) (m : List String)
    (hsess : s.hasSession = true)
    (hu : s.user_infos.find? (fun x => x.user_id == userId) = some u)
    (hul : u.workspace_id_list = some m) :
    addWorkspaceToUser s userId workspaceId =
      (.ok { u with workspace_id_list := some (m ++ [workspaceId]) },
       { s with user_infos := s.user_infos.map (fun x =>
           if x.user_id == userId
           then { x with workspace_id_list := some (m ++ [workspaceId]) } else x) }) := by
  simp only [addWorkspaceToUser, hsess, Bool.not_true, Bool.false_eq_true, if_false, hu, hul]
  rfl

/-- Sequentially appending pages keeps the workspace row findable, with all
appended identifiers accumulated at the end of its list in call order. -/
theorem addPagesSeq_find? (workspaceId : String) (pids : List String) :
    ∀ (s : Store) (w : Workspace) (l : List String),
      s.workspaces.find? (fun x => x.workspace_id == workspaceId) = some w →
      w.page_id_list = some l →
      ∃ w2, (addPagesSeq s workspaceId pids).workspaces.find?
          (fun x => x.workspace_id == workspaceId) = some w2 ∧
        w2.page_id_list = some (l ++ pids) := by
  induction pids with
  | nil =>
    intro s w l h hl
    exact ⟨w, h, by simp [hl]⟩
  | cons pid rest ih =>
    intro s w l h hl
    have hcall := addPageToWorkspace_found s workspaceId pid w l h hl
    have hfind1 : (addPageToWorkspace s workspaceId pid).2.workspaces.find?
        (fun x => x.workspace_id == workspaceId) =
          some { w with page_id_list := some (l ++ [pid]) } := by
      rw [hcall]
      exact find?_workspaces_update (l ++ [pid]) w h
    obtain ⟨w2, hw2, hl2⟩ := ih (addPageToWorkspace s workspaceId pid).2
      { w with page_id_list := some (l ++ [pid]) } (l ++ [pid]) hfind1 rfl
    refine ⟨w2, hw2, ?_⟩
    rw [hl2]
    simp

/-- The `num_completed` overwrite keeps the row's identifier. -/
theorem setNumCompletedRow_workspace_id (workspaceId : String) (n : Nat) (w : Workspace) :
    (setNumCompletedRow workspaceId n w).workspace_id = w.workspace_id := by
  unfold setNumCompletedRow
  split <;> rfl

/-- The `num_completed` overwrite keeps the row's page list. -/
theorem setNumCompletedRow_page_id_list (workspaceId : String) (n : Nat) (w : Workspace) :
    (setNumCompletedRow workspaceId n w).page_id_list = w.page_id_list := by
  unfold setNumCompletedRow
  split <;> rfl

/-- The `num_completed` overwrite keeps the row's creation time. -/
theorem setNumCompletedRow_created_at (workspaceId : String) (n : Nat) (w : Workspace) :
    (setNumCompletedRow workspaceId n w).created_at = w.created_at := by
  unfold setNumCompletedRow
  split <;> rfl

/-- When the workspace listing succeeds, `getUserWorkspacesWithPages` returns
one aggregated entry per listed workspace. -/
theorem getUserWorkspacesWithPages_ok (s : Store) (userId : String)
    (ws : List Workspace) (h : getUserWorkspaces s userId = .ok ws) :
    getUserWorkspacesWithPages s userId = .ok (ws.map (aggregateWorkspace s)) := by
  simp only [getUserWorkspacesWithPages, h]
  cases ws <;> rfl

/-- The derived progress data of a workspace aggregation depends only on the
page table, the query-failure oracle and the workspace's `page_id_list`. -/
theorem progressOf_aggregate_congr (s s2 : Store) (hp : s2.pages = s.pages)
    (he : s2.pagesQueryError = s.pagesQueryError) (w w2 : Workspace)
    (hl : w2.page_id_list = w.page_id_list) :
    progressOf (aggregateWorkspace s2 w2) = progressOf (aggregateWorkspace s w) := by
  simp only [aggregateWorkspace, fetchPagesByIds, hp, he, hl]
  split
  · rfl
  · split <;> rfl

/-- The progress view of a single-workspace aggregation call depends only on
the page table, the query-failure oracle and the found workspace's
`page_id_list`. -/
theorem progressView_congr (s s2 : Store) (hp : s2.pages = s.pages)
    (he : s2.pagesQueryError = s.pagesQueryError) (w w2 : Workspace)
    (hl : w2.page_id_list = w.page_id_list) (wid wid2 : String)
    (hw : getWorkspace s wid = .ok w) (hw2 : getWorkspace s2 wid2 = .ok w2) :
    progressView (getWorkspaceWithPages s2 wid2) =
      progressView (getWorkspaceWithPages s wid) := by
  simp only [getWorkspaceWithPages, hw, hw2, hl, fetchPagesByIds, hp, he]
  split
  · rfl
  · split <;> rfl

/-! ### Claims -/

/-- C6: for every workspace whose `page_id_list` is empty or absent, both
`getWorkspaceWithPages` and the per-workspace aggregation inside
`getUserWorkspacesWithPages` report `totalCount = 0`, `completedCount = 0`
and status `in progress`; the result is the same for an arbitrary page table
and an arbitrary pages-query failure oracle, so no page lookup is performed. -/
theorem C6_empty_list_zero_counts (s : Store) (workspaceId : String) (w : Workspace)
    (hw : getWorkspace s workspaceId = .ok w)
    (hempty : w.page_id_list.getD [] = []) :
    ∀ (ps : List Page) (err : List String → Bool),
      getWorkspaceWithPages { s with pages := ps, pagesQueryError := err } workspaceId =
        .ok { workspace := w, pages := [], completedCount := 0, totalCount := 0,
              status := "in progress" } ∧
      aggregateWorkspace { s with pages := ps, pagesQueryError := err } w =
        { workspace := w, pages := [], completedCount := 0, totalCount := 0,
          status := "in progress" } := by
  intro ps err
  have hw2 : getWorkspace { s with pages := ps, pagesQueryError := err } workspaceId = .ok w := hw
  constructor
  · simp only [getWorkspaceWithPages, hw2, hempty, List.isEmpty_nil, if_true]
  · simp only [aggregateWorkspace, hempty, List.isEmpty_nil, if_true]

/-- C6 witness: the empty-list workspace `w2` of the example store reports
zero counts and status `in progress`, for a page table and failure oracle
it never consults. -/
theorem C6_witness :
    getWorkspaceWithPages { exStore with pages := [exPage1], pagesQueryError := fun _ => true }
        "w2" =
      .ok { workspace := exWorkspace2, pages := [], completedCount := 0, totalCount := 0,
            status := "in progress" } ∧
    aggregateWorkspace { exStore with pages := [exPage1], pagesQueryError := fun _ => true }
        exWorkspace2 =
      { workspace := exWorkspace2, pages := [], completedCount := 0, totalCount := 0,
        status := "in progress" } :=
  C6_empty_list_zero_counts exStore "w2" exWorkspace2 rfl rfl [exPage1] (fun _ => true)

/-- C10: `markPageComplete` sets `is_complete := true` on the identified page
and changes nothing else: the other tables and the bucket are untouched, and
every page row keeps its `page_id`, `question`, `snapshot` and `created_at`,
with `is_complete` rewritten to `true` exactly on the identified page. -/
theorem C10_markPageComplete_frame (s : Store) (pageId : String) :
    ((markPageComplete s pageId).2.workspaces = s.workspaces ∧
     (markPageComplete s pageId).2.user_infos = s.user_infos ∧
     (markPageComplete s pageId).2.storage = s.storage ∧
     (markPageComplete s pageId).2.hasSession = s.hasSession ∧
     (markPageComplete s pageId).2.pagesQueryError = s.pagesQueryError) ∧
    List.Forall₂ (fun p q =>
        q.page_id = p.page_id ∧ q.question = p.question ∧ q.snapshot = p.snapshot ∧
        q.created_at = p.created_at ∧
        q.is_complete = (if p.page_id = pageId then true else p.is_complete))
      s.pages (markPageComplete s pageId).2.pages := by
  have hstate : (markPageComplete s pageId).2 =
      { s with pages := s.pages.map (fun p =>
          if p.page_id == pageId then { p with is_complete := true } else p) } := by
    unfold markPageComplete
    cases h : s.pages.find? (fun p => p.page_id == pageId) <;> simp [h]
  rw [hstate]
  refine ⟨⟨rfl, rfl, rfl, rfl, rfl⟩, ?_⟩
  rw [List.forall₂_map_right_iff]
  rw [List.forall₂_same]
  intro p _
  by_cases h : p.page_id = pageId
  · simp [h]
  · simp [h]

/-- C9: an interleaving of two concurrent `addPageToWorkspace` calls against
the same workspace in which both calls read the same prior (empty) page list,
each write is a single-element append of its own page, and the final
`page_id_list` has length 1, less than the number of calls. -/
theorem C9_race_loses_update :
    addPageRead exStore "w2" = .ok [] ∧
    (addPageWrite exStore "w2" "pA" []).1 =
      .ok { exWorkspace2 with page_id_list := some ["pA"] } ∧
    (addPageWrite (addPageWrite exStore "w2" "pA" []).2 "w2" "pB" []).1 =
      .ok { exWorkspace2 with page_id_list := some ["pB"] } ∧
    ∃ w, getWorkspace (addPageWrite (addPageWrite exStore "w2" "pA" []).2 "w2" "pB" []).2 "w2" =
        .ok w ∧
      (w.page_id_list.getD []).length = 1 ∧ (w.page_id_list.getD []).length < 2 := by
  refine ⟨rfl, rfl, rfl, _, rfl, rfl, ?_⟩
  decide

/-- C5 counterexample: for a user with no `user_info` record at all (hence
zero workspaces), `getUserWorkspacesWithPages` returns an error instead of an
empty sequence. -/
theorem C5_counterexample :
    exStore.user_infos.find? (fun u => u.user_id == "nobody") = none ∧
    getUserWorkspacesWithPages exStore "nobody" = .error .notFound :=
  ⟨rfl, rfl⟩

/-- C5 amended: when the user's `user_info` record exists with an empty (or
null) `workspace_id_list`, `getUserWorkspacesWithPages` returns an empty
sequence and no error; when no `user_info` record exists, the lookup error
propagates and the call returns that error instead. -/
theorem C5_zero_workspaces (s : Store) (userId : String) :
    (∀ u, getUserInfo s userId = .ok u → u.workspace_id_list.getD [] = [] →
      getUserWorkspacesWithPages s userId = .ok []) ∧
    (∀ e, getUserInfo s userId = .error e →
      getUserWorkspacesWithPages s userId = .error e) := by
  constructor
  · intro u hu hl
    have hws : getUserWorkspaces s userId = .ok [] := by
      simp only [getUserWorkspaces, hu]
      cases h : u.workspace_id_list with
      | none => rfl
      | some wids =>
        rw [h] at hl
        simp only [Option.getD_some] at hl
        simp [hl]
    simp [getUserWorkspacesWithPages, hws]
  · intro e he
    have hws : getUserWorkspaces s userId = .error e := by
      simp [getUserWorkspaces, he]
    simp [getUserWorkspacesWithPages, hws]

/-- C5 witness: the example user `v` has a `user_info` record with an empty
workspace list, and the listing call returns an empty sequence. -/
theorem C5_witness :
    getUserInfo exStore "v" = .ok exUserEmpty ∧ exUserEmpty.workspace_id_list.getD [] = [] ∧
    getUserWorkspacesWithPages exStore "v" = .ok [] :=
  ⟨rfl, rfl, (C5_zero_workspaces exStore "v").1 exUserEmpty rfl rfl⟩

/-- C2 counterexample: in the example store whose pages query fails for
workspace `w1`'s list, the listing call succeeds and reports `w1` with
`completedCount = 0` but `totalCount = 2`, not the zero `totalCount` the
claim states. -/
theorem C2_counterexample :
    ∃ r1 r2, getUserWorkspacesWithPages exStoreFail "u" = .ok [r1, r2] ∧
      r1.workspace = exWorkspace2 ∧
      r2.workspace = exWorkspace1 ∧ r2.completedCount = 0 ∧ r2.totalCount = 2 ∧
      ¬ r2.totalCount = 0 ∧ r2.status = "in progress" := by
  refine ⟨_, _, rfl, rfl, rfl, rfl, rfl, by decide, rfl⟩

/-- C2 amended: when the pages lookup for one workspace in the user's list
fails, that workspace is reported with `completedCount = 0`, `totalCount`
equal to the length of its `page_id_list` (not 0) and status `in progress`,
and the overall call still succeeds with one aggregated entry per listed
workspace. -/
theorem C2_degraded_workspace (s : Store) (userId : String)
    (workspaces : List Workspace) (w : Workspace) (pageIds : List String)
    (hws : getUserWorkspaces s userId = .ok workspaces)
    (hmem : w ∈ workspaces)
    (hl : w.page_id_list = some pageIds)
    (hne : pageIds ≠ [])
    (hfail : s.pagesQueryError pageIds = true) :
    getUserWorkspacesWithPages s userId = .ok (workspaces.map (aggregateWorkspace s)) ∧
    aggregateWorkspace s w =
      { workspace := w, pages := [], completedCount := 0, totalCount := pageIds.length,
        status := "in progress" } := by
  constructor
  · simp only [getUserWorkspacesWithPages, hws]
    cases workspaces with
    | nil => rfl
    | cons a rest => rfl
  · have hne2 : pageIds.isEmpty = false := List.isEmpty_eq_false.mpr hne
    simp [aggregateWorkspace, hl, hne2, fetchPagesByIds, hfail]

/-- C2 witness: the amended statement evaluated on the example store with the
failing pages query. -/
theorem C2_witness :
    getUserWorkspaces exStoreFail "u" = .ok [exWorkspace2, exWorkspace1] ∧
    exWorkspace1 ∈ [exWorkspace2, exWorkspace1] ∧
    exStoreFail.pagesQueryError ["p1", "p2"] = true ∧
    (getUserWorkspacesWithPages exStoreFail "u" =
        .ok ([exWorkspace2, exWorkspace1].map (aggregateWorkspace exStoreFail)) ∧
      aggregateWorkspace exStoreFail exWorkspace1 =
        { workspace := exWorkspace1, pages := [], completedCount := 0, totalCount := 2,
          status := "in progress" }) :=
  ⟨rfl, by decide, rfl,
    C2_degraded_workspace exStoreFail "u" [exWorkspace2, exWorkspace1] exWorkspace1
      ["p1", "p2"] rfl (by decide) rfl (by decide) rfl⟩

/-- C7: `addPageToWorkspace` and `addWorkspaceToUser` are not idempotent:
when the target list already contains the identifier, the call appends a
second, duplicate occurrence, and two sequential calls with the same
arguments leave the stored list two elements longer. -/
theorem C7_not_idempotent (s : Store) (workspaceId pageId userId wsId : String)
    (w : Workspace) (l : List String) (u : UserInfo) (m : List String)
    (hw : s.workspaces.find? (fun x => x.workspace_id == workspaceId) = some w)
    (hwl : w.page_id_list = some l) (hmem : pageId ∈ l)
    (hsess : s.hasSession = true)
    (hu : s.user_infos.find? (fun x => x.user_id == userId) = some u)
    (hul : u.workspace_id_list = some m) (hmem2 : wsId ∈ m) :
    ((addPageToWorkspace s workspaceId pageId).1 =
        .ok { w with page_id_list := some (l ++ [pageId]) } ∧
      (l ++ [pageId]).count pageId = l.count pageId + 1 ∧
      2 ≤ (l ++ [pageId]).count pageId ∧
      (∃ w2, (addPageToWorkspace (addPageToWorkspace s workspaceId pageId).2
            workspaceId pageId).2.workspaces.find?
            (fun x => x.workspace_id == workspaceId) = some w2 ∧
        w2.page_id_list = some (l ++ [pageId] ++ [pageId]) ∧
        (w2.page_id_list.getD []).length = l.length + 2)) ∧
    ((addWorkspaceToUser s userId wsId).1 =
        .ok { u with workspace_id_list := some (m ++ [wsId]) } ∧
      (m ++ [wsId]).count wsId = m.count wsId + 1 ∧
      2 ≤ (m ++ [wsId]).count wsId ∧
      (∃ u2, (addWorkspaceToUser (addWorkspaceToUser s userId wsId).2
            userId wsId).2.user_infos.find?
            (fun x => x.user_id == userId) = some u2 ∧
        u2.workspace_id_list = some (m ++ [wsId] ++ [wsId]) ∧
        (u2.workspace_id_list.getD []).length = m.length + 2)) := by
  have hcount : ∀ (a : String) (xs : List String), a ∈ xs →
      (xs ++ [a]).count a = xs.count a + 1 ∧ 2 ≤ (xs ++ [a]).count a := by
    intro a xs hxs
    have h1 : (xs ++ [a]).count a = xs.count a + 1 := by
      simp [List.count_append]
    have h2 : 1 ≤ xs.count a := List.count_pos_iff.mpr hxs
    exact ⟨h1, by omega⟩
  constructor
  · have hcall := addPageToWorkspace_found s workspaceId pageId w l hw hwl
    have hfind1 : (addPageToWorkspace s workspaceId pageId).2.workspaces.find?
        (fun x => x.workspace_id == workspaceId) =
          some { w with page_id_list := some (l ++ [pageId]) } := by
      rw [hcall]
      exact find?_workspaces_update (l ++ [pageId]) w hw
    have hcall2 := addPageToWorkspace_found (addPageToWorkspace s workspaceId pageId).2
      workspaceId pageId { w with page_id_list := some (l ++ [pageId]) } (l ++ [pageId])
      hfind1 rfl
    have hfind2 : (addPageToWorkspace (addPageToWorkspace s workspaceId pageId).2
        workspaceId pageId).2.workspaces.find?
        (fun x => x.workspace_id == workspaceId) =
          some { w with page_id_list := some (l ++ [pageId] ++ [pageId]) } := by
      rw [hcall2]
      exact find?_workspaces_update (l ++ [pageId] ++ [pageId])
        { w with page_id_list := some (l ++ [pageId]) } hfind1
    refine ⟨by rw [hcall], (hcount pageId l hmem).1, (hcount pageId l hmem).2, ?_⟩
    refine ⟨{ w with page_id_list := some (l ++ [pageId] ++ [pageId]) }, hfind2, rfl, ?_⟩
    show (l ++ [pageId] ++ [pageId]).length = l.length + 2
    simp
  · have hcall := addWorkspaceToUser_found s userId wsId u m hsess hu hul
    have hfind1 : (addWorkspaceToUser s userId wsId).2.user_infos.find?
        (fun x => x.user_id == userId) =
          some { u with workspace_id_list := some (m ++ [wsId]) } := by
      rw [hcall]
      exact find?_user_infos_update (m ++ [wsId]) u hu
    have hcall2 := addWorkspaceToUser_found (addWorkspaceToUser s userId wsId).2
      userId wsId { u with workspace_id_list := some (m ++ [wsId]) } (m ++ [wsId])
      (by rw [hcall]; exact hsess) hfind1 rfl
    have hfind2 : (addWorkspaceToUser (addWorkspaceToUser s userId wsId).2
        userId wsId).2.user_infos.find?
        (fun x => x.user_id == userId) =
          some { u with workspace_id_list := some (m ++ [wsId] ++ [wsId]) } := by
      rw [hcall2]
      exact find?_user_infos_update (m ++ [wsId] ++ [wsId])
        { u with workspace_id_list := some (m ++ [wsId]) } hfind1
    refine ⟨by rw [hcall], (hcount wsId m hmem2).1, (hcount wsId m hmem2).2, ?_⟩
    refine ⟨{ u with workspace_id_list := some (m ++ [wsId] ++ [wsId]) }, hfind2, rfl, ?_⟩
    show (m ++ [wsId] ++ [wsId]).length = m.length + 2
    simp

/-- C3: against a freshly created workspace (whose `page_id_list` starts
empty), sequential `addPageToWorkspace` calls for distinct pages P1..Pk leave
the stored `page_id_list` equal to `[P1, ..., Pk]` in call order. -/
theorem C3_sequential_build (s : Store) (workspaceId title : String)
    (uploadUrl : Option String) (now : Nat) (pids : List String)
    (hfresh : s.workspaces.find? (fun x => x.workspace_id == workspaceId) = none)
    (_hdistinct : pids.Nodup) :
    ∃ w, (addPagesSeq (createWorkspace s workspaceId title uploadUrl now).2
        workspaceId pids).workspaces.find?
        (fun x => x.workspace_id == workspaceId) = some w ∧
      w.page_id_list = some pids := by
  have hany : s.workspaces.any (fun x => x.workspace_id == workspaceId) = false := by
    rw [List.any_eq_false]
    intro x hx
    exact List.find?_eq_none.mp hfresh x hx
  have hins : (createWorkspace s workspaceId title uploadUrl now).2.workspaces =
      s.workspaces ++ [Workspace.mk workspaceId title uploadUrl (some []) [] 0 now] := by
    simp [createWorkspace, hany]
  have hfind : (createWorkspace s workspaceId title uploadUrl now).2.workspaces.find?
      (fun x => x.workspace_id == workspaceId) =
      some (Workspace.mk workspaceId title uploadUrl (some []) [] 0 now) := by
    rw [hins, List.find?_append, hfresh]
    simp
  obtain ⟨w2, hw2, hl2⟩ := addPagesSeq_find? workspaceId pids _ _ [] hfind rfl
  exact ⟨w2, hw2, by simpa using hl2⟩

/-- C3 witness: two distinct pages appended to a fresh workspace of the
example store end up as its `page_id_list` in call order. -/
theorem C3_witness :
    exStore.workspaces.find? (fun x => x.workspace_id == "w9") = none ∧
    (["a", "b"] : List String).Nodup ∧
    (∃ w, (addPagesSeq (createWorkspace exStore "w9" "T" none 3).2 "w9"
        ["a", "b"]).workspaces.find?
        (fun x => x.workspace_id == "w9") = some w ∧
      w.page_id_list = some ["a", "b"]) :=
  ⟨rfl, by decide, C3_sequential_build exStore "w9" "T" none 3 ["a", "b"] rfl (by decide)⟩

/-- C8: `createWorkspaceWithUpload` runs upload, workspace creation and user
linking strictly in sequence, each step only after the previous succeeded;
when the creation or linking step fails the whole call returns that error and
the already-uploaded object is left in storage (no compensating delete). -/
theorem C8_no_compensating_delete (s : Store) (title : String) (file : FileUpload)
    (userId : String) (now : Nat) (freshWorkspaceId : String) :
    (∀ e s1, uploadFile s file now = (.error e, s1) →
      createWorkspaceWithUpload s title file userId now freshWorkspaceId = (.error e, s1) ∧
      s1 = s) ∧
    (∀ up s1, uploadFile s file now = (.ok up, s1) →
      (∀ e s2, createWorkspace s1 freshWorkspaceId title (some up.url) now = (.error e, s2) →
        createWorkspaceWithUpload s title file userId now freshWorkspaceId = (.error e, s2) ∧
        up.path ∈ s2.storage ∧ s2.workspaces = s.workspaces ∧ s2.user_infos = s.user_infos) ∧
      (∀ w s2, createWorkspace s1 freshWorkspaceId title (some up.url) now = (.ok w, s2) →
        ∀ e s3, addWorkspaceToUser s2 userId w.workspace_id = (.error e, s3) →
          createWorkspaceWithUpload s title file userId now freshWorkspaceId = (.error e, s3) ∧
          up.path ∈ s3.storage ∧ s3.user_infos = s.user_infos)) := by
  have hup : ∀ up s1, uploadFile s file now = (.ok up, s1) →
      up.path = uploadPath file now ∧
      s1 = { s with storage := s.storage ++ [uploadPath file now] } := by
    intro up s1 h
    simp only [uploadFile] at h
    split at h
    · simp at h
    · simp only [Prod.mk.injEq, Except.ok.injEq] at h
      obtain ⟨hfst, hsnd⟩ := h
      constructor
      · rw [← hfst]
      · exact hsnd.symm
  refine ⟨?_, ?_⟩
  · intro e s1 h
    have hs1 : s1 = s := by
      simp only [uploadFile] at h
      split at h
      · exact (congrArg Prod.snd h).symm
      · simp at h
    refine ⟨?_, hs1⟩
    simp only [createWorkspaceWithUpload, h]
  · intro up s1 h
    obtain ⟨hpath, hs1⟩ := hup up s1 h
    constructor
    · intro e s2 h2
      have hs2 : s2 = s1 := by
        simp only [createWorkspace] at h2
        split at h2
        · exact (congrArg Prod.snd h2).symm
        · simp at h2
      refine ⟨?_, ?_, ?_, ?_⟩
      · simp only [createWorkspaceWithUpload, h, h2]
      · rw [hs2, hs1, hpath]
        simp
      · rw [hs2, hs1]
      · rw [hs2, hs1]
    · intro w s2 h2 e s3 h3
      have hs2 : s2 = { s1 with workspaces := s1.workspaces ++
          [Workspace.mk freshWorkspaceId title (some up.url) (some []) [] 0 now] } := by
        simp only [createWorkspace] at h2
        split at h2
        · simp at h2
        · exact (congrArg Prod.snd h2).symm
      have hs3 : s3.storage = s2.storage ∧ s3.user_infos = s2.user_infos := by
        simp only [addWorkspaceToUser] at h3
        split at h3
        · have hss : s2 = s3 := congrArg Prod.snd h3
          rw [← hss]
          exact ⟨rfl, rfl⟩
        · split at h3
          · simp at h3
          · simp at h3
      refine ⟨?_, ?_, ?_⟩
      · simp only [createWorkspaceWithUpload, h, h2, h3]
      · rw [hs3.1, hs2, hs1, hpath]
        simp
      · rw [hs3.2, hs2, hs1]

/-- C8 witness: uploading `notes.png` into the example store succeeds, the
subsequent workspace creation conflicts on the existing identifier `w1`, the
compound call returns that error, and the uploaded object `42.png` is left in
storage with no workspace or user-link written. -/
theorem C8_witness :
    createWorkspaceWithUpload exStore "T" (FileUpload.mk "notes.png") "u" 42 "w1" =
      (.error .conflict, { exStore with storage := ["42.png"] }) ∧
    "42.png" ∈ ({ exStore with storage := ["42.png"] } : Store).storage ∧
    ({ exStore with storage := ["42.png"] } : Store).workspaces = exStore.workspaces ∧
    ({ exStore with storage := ["42.png"] } : Store).user_infos = exStore.user_infos :=
  ((C8_no_compensating_delete exStore "T" (FileUpload.mk "notes.png") "u" 42 "w1").2
      (UploadResult.mk "42.png" "uploads/42.png" "notes.png")
      { exStore with storage := ["42.png"] } rfl).1 .conflict
    { exStore with storage := ["42.png"] } rfl

/-- C1: when the workspace is found, its page list is non-empty, the pages
query succeeds and every listed page identifier is present in the store,
`getWorkspaceWithPages` (and the identical per-workspace aggregation used by
`getUserWorkspacesWithPages`) reports `completedCount` equal to the number of
fetched pages with `is_complete = true`, `totalCount` equal to the number of
fetched pages, and status `completed` exactly when `totalCount > 0` and
`completedCount = totalCount`, otherwise `in progress`. -/
theorem C1_counts_and_status (s : Store) (workspaceId : String) (w : Workspace)
    (pageIds : List String)
    (hw : getWorkspace s workspaceId = .ok w)
    (hl : w.page_id_list = some pageIds)
    (hne : pageIds ≠ [])
    (hok : s.pagesQueryError pageIds = false)
    (_hfound : ∀ pid ∈ pageIds, ∃ p ∈ s.pages, p.page_id = pid) :
    ∃ r, getWorkspaceWithPages s workspaceId = .ok r ∧
      aggregateWorkspace s w = r ∧
      r.completedCount =
        ((s.pages.filter (fun p => pageIds.contains p.page_id)).filter
          (fun p => p.is_complete)).length ∧
      r.totalCount = (s.pages.filter (fun p => pageIds.contains p.page_id)).length ∧
      r.status = (if r.completedCount = r.totalCount ∧ 0 < r.totalCount
        then "completed" else "in progress") := by
  have hne2 : pageIds.isEmpty = false := List.isEmpty_eq_false.mpr hne
  have hfetch : fetchPagesByIds s pageIds =
      .ok (List.insertionSort pageOrder
        (s.pages.filter (fun p => pageIds.contains p.page_id))) := by
    simp [fetchPagesByIds, hok]
  have hperm : (List.insertionSort pageOrder
      (s.pages.filter (fun p => pageIds.contains p.page_id))).Perm
      (s.pages.filter (fun p => pageIds.contains p.page_id)) :=
    List.perm_insertionSort pageOrder _
  have hcall : getWorkspaceWithPages s workspaceId = .ok (aggregateWorkspace s w) := by
    simp only [getWorkspaceWithPages, hw, hl, Option.getD_some, hne2, Bool.false_eq_true,
      if_false, hfetch, aggregateWorkspace]
  have hcomp : (aggregateWorkspace s w).completedCount =
      ((s.pages.filter (fun p => pageIds.contains p.page_id)).filter
        (fun p => p.is_complete)).length := by
    simp only [aggregateWorkspace, hl, Option.getD_some, hne2, Bool.false_eq_true,
      if_false, hfetch]
    exact (hperm.filter (fun p => p.is_complete)).length_eq
  have htot : (aggregateWorkspace s w).totalCount =
      (s.pages.filter (fun p => pageIds.contains p.page_id)).length := by
    simp only [aggregateWorkspace, hl, Option.getD_some, hne2, Bool.false_eq_true,
      if_false, hfetch]
    exact hperm.length_eq
  have hstat : (aggregateWorkspace s w).status =
      (if (aggregateWorkspace s w).completedCount = (aggregateWorkspace s w).totalCount ∧
          0 < (aggregateWorkspace s w).totalCount
        then "completed" else "in progress") := by
    simp only [aggregateWorkspace, hl, Option.getD_some, hne2, Bool.false_eq_true,
      if_false, hfetch]
  exact ⟨aggregateWorkspace s w, hcall, rfl, hcomp, htot, hstat⟩

/-- C1 witness: on the example store, workspace `w1` has pages `p1`
(complete) and `p2` (incomplete), so the call reports 1 of 2 complete and
status `in progress`. -/
theorem C1_witness :
    (["p1", "p2"] : List String) ≠ [] ∧
    exStore.pagesQueryError ["p1", "p2"] = false ∧
    (∃ r, getWorkspaceWithPages exStore "w1" = .ok r ∧
      aggregateWorkspace exStore exWorkspace1 = r ∧
      r.completedCount =
        ((exStore.pages.filter (fun p => (["p1", "p2"] : List String).contains p.page_id)).filter
          (fun p => p.is_complete)).length ∧
      r.totalCount =
        (exStore.pages.filter (fun p => (["p1", "p2"] : List String).contains p.page_id)).length ∧
      r.status = (if r.completedCount = r.totalCount ∧ 0 < r.totalCount
        then "completed" else "in progress")) :=
  ⟨by decide, rfl,
    C1_counts_and_status exStore "w1" exWorkspace1 ["p1", "p2"] rfl rfl (by decide) rfl
      (by decide)⟩

/-- C4: the derived counts and status do not depend on the stored
`num_completed` field: overwriting it on every row carrying a given workspace
identifier changes neither the progress view of `getWorkspaceWithPages` for
any queried workspace nor that of `getUserWorkspacesWithPages` for any user. -/
theorem C4_num_completed_untrusted (s : Store) (workspaceId : String) (n : Nat)
    (queryId userId : String) :
    progressView (getWorkspaceWithPages (setNumCompleted s workspaceId n) queryId) =
      progressView (getWorkspaceWithPages s queryId) ∧
    progressListView (getUserWorkspacesWithPages (setNumCompleted s workspaceId n) userId) =
      progressListView (getUserWorkspacesWithPages s userId) := by
  have hfind : ∀ qid : String,
      (setNumCompleted s workspaceId n).workspaces.find? (fun x => x.workspace_id == qid) =
        (s.workspaces.find? (fun x => x.workspace_id == qid)).map
          (setNumCompletedRow workspaceId n) := by
    intro qid
    show (s.workspaces.map (setNumCompletedRow workspaceId n)).find? _ = _
    rw [List.find?_map]
    have hpred : ((fun x : Workspace => x.workspace_id == qid) ∘
        setNumCompletedRow workspaceId n) = (fun x : Workspace => x.workspace_id == qid) := by
      funext x
      simp [Function.comp, setNumCompletedRow_workspace_id]
    rw [hpred]
  constructor
  · cases hg : s.workspaces.find? (fun x => x.workspace_id == queryId) with
    | none =>
      have h1 : getWorkspaceWithPages s queryId = .error .notFound := by
        simp [getWorkspaceWithPages, getWorkspace, hg]
      have h2 : getWorkspaceWithPages (setNumCompleted s workspaceId n) queryId =
          .error .notFound := by
        simp [getWorkspaceWithPages, getWorkspace, hfind queryId, hg]
      rw [h1, h2]
    | some w =>
      have h1 : getWorkspace s queryId = .ok w := by
        simp [getWorkspace, hg]
      have h2 : getWorkspace (setNumCompleted s workspaceId n) queryId =
          .ok (setNumCompletedRow workspaceId n w) := by
        simp [getWorkspace, hfind queryId, hg]
      exact progressView_congr s (setNumCompleted s workspaceId n) rfl rfl w
        (setNumCompletedRow workspaceId n w) (setNumCompletedRow_page_id_list workspaceId n w)
        queryId queryId h1 h2
  · have hui : getUserInfo (setNumCompleted s workspaceId n) userId = getUserInfo s userId := rfl
    cases hg : getUserInfo s userId with
    | error e =>
      have h1 : getUserWorkspaces s userId = .error e := by
        simp [getUserWorkspaces, hg]
      have h2 : getUserWorkspaces (setNumCompleted s workspaceId n) userId = .error e := by
        simp [getUserWorkspaces, hui, hg]
      simp [getUserWorkspacesWithPages, h1, h2]
    | ok u =>
      cases hwl : u.workspace_id_list with
      | none =>
        have h1 : getUserWorkspaces s userId = .ok [] := by
          simp [getUserWorkspaces, hg, hwl]
        have h2 : getUserWorkspaces (setNumCompleted s workspaceId n) userId = .ok [] := by
          simp [getUserWorkspaces, hui, hg, hwl]
        simp [getUserWorkspacesWithPages, h1, h2]
      | some wids =>
        cases hwe : wids.isEmpty with
        | true =>
          have h1 : getUserWorkspaces s userId = .ok [] := by
            simp [getUserWorkspaces, hg, hwl, hwe]
          have h2 : getUserWorkspaces (setNumCompleted s workspaceId n) userId = .ok [] := by
            simp [getUserWorkspaces, hui, hg, hwl, hwe]
          simp [getUserWorkspacesWithPages, h1, h2]
        | false =>
          have hfilter : (setNumCompleted s workspaceId n).workspaces.filter
              (fun x => wids.contains x.workspace_id) =
              (s.workspaces.filter (fun x => wids.contains x.workspace_id)).map
                (setNumCompletedRow workspaceId n) := by
            show (s.workspaces.map (setNumCompletedRow workspaceId n)).filter _ = _
            rw [List.filter_map]
            have hpred : ((fun x : Workspace => wids.contains x.workspace_id) ∘
                setNumCompletedRow workspaceId n) =
                (fun x : Workspace => wids.contains x.workspace_id) := by
              funext x
              simp [Function.comp, setNumCompletedRow_workspace_id]
            rw [hpred]
          have hsort : List.insertionSort workspaceOrder
              ((s.workspaces.filter (fun x => wids.contains x.workspace_id)).map
                (setNumCompletedRow workspaceId n)) =
              (List.insertionSort workspaceOrder
                (s.workspaces.filter (fun x => wids.contains x.workspace_id))).map
                (setNumCompletedRow workspaceId n) := by
            symm
            apply List.map_insertionSort
            intro a _ b _
            unfold workspaceOrder
            rw [setNumCompletedRow_created_at, setNumCompletedRow_created_at]
          have h1 : getUserWorkspaces s userId = .ok (List.insertionSort workspaceOrder
              (s.workspaces.filter (fun x => wids.contains x.workspace_id))) := by
            simp only [getUserWorkspaces, hg, hwl, hwe, Bool.false_eq_true, if_false]
          have h2 : getUserWorkspaces (setNumCompleted s workspaceId n) userId =
              .ok ((List.insertionSort workspaceOrder
                (s.workspaces.filter (fun x => wids.contains x.workspace_id))).map
                (setNumCompletedRow workspaceId n)) := by
            simp only [getUserWorkspaces, hui, hg, hwl, hwe, Bool.false_eq_true, if_false,
              hfilter, hsort]
          rw [getUserWorkspacesWithPages_ok s userId _ h1,
            getUserWorkspacesWithPages_ok (setNumCompleted s workspaceId n) userId _ h2]
          simp only [progressListView, Option.some.injEq, List.map_map]
          apply List.map_congr_left
          intro x _
          exact progressOf_aggregate_congr s (setNumCompleted s workspaceId n) rfl rfl x
            (setNumCompletedRow workspaceId n x) (setNumCompletedRow_page_id_list workspaceId n x)


/-- C7 witness: in the example store, `w1` already lists page `p1` and user
`u` already lists workspace `w1`; the duplicate appends evaluated there. -/
theorem C7_witness :
    "p1" ∈ ["p1", "p2"] ∧ "w1" ∈ ["w1", "w2"] ∧
    (((addPageToWorkspace exStore "w1" "p1").1 =
        .ok { exWorkspace1 with page_id_list := some ["p1", "p2", "p1"] } ∧
      (["p1", "p2"] ++ ["p1"]).count "p1" = (["p1", "p2"] : List String).count "p1" + 1 ∧
      2 ≤ (["p1", "p2"] ++ ["p1"]).count "p1" ∧
      (∃ w2, (addPageToWorkspace (addPageToWorkspace exStore "w1" "p1").2
            "w1" "p1").2.workspaces.find?
            (fun x => x.workspace_id == "w1") = some w2 ∧
        w2.page_id_list = some (["p1", "p2"] ++ ["p1"] ++ ["p1"]) ∧
        (w2.page_id_list.getD []).length = (["p1", "p2"] : List String).length + 2)) ∧
    ((addWorkspaceToUser exStore "u" "w1").1 =
        .ok { exUser with workspace_id_list := some ["w1", "w2", "w1"] } ∧
      (["w1", "w2"] ++ ["w1"]).count "w1" = (["w1", "w2"] : List String).count "w1" + 1 ∧
      2 ≤ (["w1", "w2"] ++ ["w1"]).count "w1" ∧
      (∃ u2, (addWorkspaceToUser (addWorkspaceToUser exStore "u" "w1").2
            "u" "w1").2.user_infos.find?
            (fun x => x.user_id == "u") = some u2 ∧
        u2.workspace_id_list = some (["w1", "w2"] ++ ["w1"] ++ ["w1"]) ∧
        (u2.workspace_id_list.getD []).length = (["w1", "w2"] : List String).length + 2))) :=
  ⟨by decide, by decide,
    C7_not_idempotent exStore "w1" "p1" "u" "w1" exWorkspace1 ["p1", "p2"] exUser
      ["w1", "w2"] rfl rfl (by decide) rfl rfl rfl (by decide)⟩

end Euclid
